import Mathlib

/-!
# Ledger & Eligibility Engine — verification of spec claims against the code

Shallow embedding of the reward/withdrawal bot (src/config.py, src/database.py,
src/bot.py).  Money amounts are modelled as exact rationals (the Python code
uses floats; no claim under test depends on IEEE rounding, and the spec's
constants 0.2, 10%, 0.02 are exact rationals).  Timestamps are integers
(Unix seconds, as stored by the code).  `created_at` columns on transaction
and withdrawal rows are omitted: no claim refers to them.

Each Database method in src/database.py wraps its store access in
`try/except` and reports failure through its return value (`False` / `None`
/ `[]`).  We model a store fault on a write as an explicit boolean parameter
(`ok`): when `ok = false` the write does not happen and the method returns
its failure value, exactly as the Python method does when the supabase call
raises.  Handlers thread these flags exactly where the Python handler makes
the corresponding call, and inspect the result exactly where the Python
handler inspects it (which for most writes is: nowhere).
-/

namespace Starssov

/-- Game constants from `src/config.py` (CLICK_REWARD = 0.2 as a rational). -/
def CLICK_REWARD : ℚ := 1/5

/-- `src/config.py`: CLICK_COOLDOWN = 3600 seconds. -/
def CLICK_COOLDOWN : Int := 3600

/-- `src/config.py`: CLICK_REFERRAL_PERCENT = 10. -/
def CLICK_REFERRAL_PERCENT : ℚ := 10

/-- `src/config.py`: WITHDRAWAL_AMOUNTS = [15, 25, 50, 100]. -/
def WITHDRAWAL_AMOUNTS : List ℚ := [15, 25, 50, 100]

/-- A row of the `users` table (src/database.py create_user's columns). -/
structure UserRow where
  user_id : Int
  username : String
  referrer_id : Option Int
  created_at : Int
  balance : ℚ
  last_click : Option Int
deriving Repr, DecidableEq

/-- A row of the `transactions` table (src/database.py add_transaction). -/
structure TxnRow where
  user_id : Int
  amount : ℚ
  type : String
  description : String
deriving Repr, DecidableEq

/-- A row of the `withdrawals` table (src/database.py create_withdrawal). -/
structure WithdrawalRow where
  id : Int
  user_id : Int
  amount : ℚ
  status : String
deriving Repr, DecidableEq

/-- A row of the `user_sponsors` table (src/database.py
update_user_sponsor_status): the recorded subscription status of one user
for one sponsor. -/
structure UserSponsorRow where
  user_id : Int
  sponsor_id : Int
  is_subscribed : Bool
deriving Repr, DecidableEq

/-- A row of the `sponsors` table (a configured sponsor; only its id is
relevant to the claims). -/
structure SponsorRow where
  id : Int
deriving Repr, DecidableEq

/-- The persistent store (supabase tables used by the engine).
`next_withdrawal_id` models the store-assigned serial id column of
`withdrawals`. -/
structure DB where
  users : List UserRow
  transactions : List TxnRow
  withdrawals : List WithdrawalRow
  user_sponsors : List UserSponsorRow
  sponsors : List SponsorRow
  next_withdrawal_id : Int
deriving Repr, DecidableEq

/-- `select * from users where user_id = uid` returning the first row. -/
def find_user : List UserRow → Int → Option UserRow
  | [], _ => none
  | u :: us, uid => if u.user_id == uid then some u else find_user us uid

/-- `Database.get_user` (src/database.py lines 24-34). -/
def get_user (db : DB) (uid : Int) : Option UserRow :=
  find_user db.users uid

/-- `update users set ... where user_id = uid`: rewrite the matching rows. -/
def update_user_row (users : List UserRow) (uid : Int) (f : UserRow → UserRow) :
    List UserRow :=
  users.map (fun u => if u.user_id == uid then f u else u)

/-- `Database.create_user` (src/database.py lines 36-55).  The supabase call
is `upsert(user_data, on_conflict="user_id")` with the default
merge-duplicates resolution: it inserts the row, or — when a row with this
`user_id` already exists — updates ALL supplied columns of the existing row,
i.e. overwrites `username`, `referrer_id`, `created_at`, `balance` (with 0.0)
and `last_click` (with None).  `username or f"user_{user_id}"` defaults an
empty/None username. -/
def create_user (db : DB) (uid : Int) (username : String)
    (referrer_id : Option Int) (now : Int) : DB :=
  let name := if username = "" then "user_" ++ toString uid else username
  let row : UserRow :=
    { user_id := uid, username := name, referrer_id := referrer_id,
      created_at := now, balance := 0, last_click := none }
  { db with users :=
      if db.users.any (fun u => u.user_id == uid) then
        update_user_row db.users uid (fun _ => row)
      else
        db.users ++ [row] }

/-- `Database.update_balance` (src/database.py lines 57-74): read the row,
compute `new_balance = balance + amount` in process, write it back (a
read-modify-write across two store round-trips).  Returns `false` (and
writes nothing) when the user is absent or the store call fails. -/
def update_balance (db : DB) (uid : Int) (amount : ℚ) (ok : Bool) :
    Bool × DB :=
  if ok = false then (false, db)
  else
    match get_user db uid with
    | none => (false, db)
    | some u =>
      let new_balance := u.balance + amount
      (true, { db with users :=
        update_user_row db.users uid (fun v => { v with balance := new_balance }) })

/-- `Database.update_last_click` (src/database.py lines 76-86). -/
def update_last_click (db : DB) (uid : Int) (ts : Int) (ok : Bool) :
    Bool × DB :=
  if ok = false then (false, db)
  else
    (db.users.any (fun u => u.user_id == uid),
     { db with users :=
        update_user_row db.users uid (fun v => { v with last_click := some ts }) })

/-- `Database.add_transaction` (src/database.py lines 152-167): append-only
insert into `transactions`. -/
def add_transaction (db : DB) (uid : Int) (amount : ℚ) (ty : String)
    (desc : String) (ok : Bool) : Bool × DB :=
  if ok = false then (false, db)
  else
    (true, { db with transactions :=
      db.transactions ++ [{ user_id := uid, amount := amount, type := ty,
                            description := desc }] })

/-- `Database.create_withdrawal` (src/database.py lines 170-184): insert a
`pending` row and return it, or `none` when the store call fails. -/
def create_withdrawal (db : DB) (uid : Int) (amount : ℚ) (ok : Bool) :
    Option (WithdrawalRow × DB) :=
  if ok = false then none
  else
    let w : WithdrawalRow :=
      { id := db.next_withdrawal_id, user_id := uid, amount := amount,
        status := "pending" }
    some (w, { db with withdrawals := db.withdrawals ++ [w],
                       next_withdrawal_id := db.next_withdrawal_id + 1 })

/-- `Database.get_user_sponsors_status` (src/database.py lines 116-126).
Modelled from the spec: the server-side RPC `get_user_sponsors_status` is not
under src/; per the spec's data model (§3, SponsorSubscriptionStatus is the
set of upserted `(userId, sponsorId)` rows) its success result is the user's
recorded sponsor-status rows.  The except-branch (lines 124-126) returns `[]`
when the store call fails, which `fail = true` models. -/
def get_user_sponsors_status (db : DB) (uid : Int) (fail : Bool) :
    List UserSponsorRow :=
  if fail then [] else db.user_sponsors.filter (fun r => r.user_id == uid)

/-- The `for sponsor in sponsors_status: if not sponsor.get('is_subscribed',
False): return False / return True` loop of `check_subscriptions`
(src/bot.py lines 63-66). -/
def all_subscribed : List UserSponsorRow → Bool
  | [] => true
  | r :: rs => if r.is_subscribed = false then false else all_subscribed rs

/-- `check_subscriptions` (src/bot.py lines 56-69): `if not sponsors_status:
return True`, then the loop over the returned rows. -/
def check_subscriptions (db : DB) (uid : Int) (fail : Bool) : Bool :=
  let rows := get_user_sponsors_status db uid fail
  if rows.isEmpty then true else all_subscribed rows

/-- Result of the `click` callback handler, one constructor per return path
of `handle_click` (src/bot.py lines 202-253). -/
inductive ClickResult
  | subRequired
  | noUser
  | cooldown (remaining : Int)
  | rewarded
deriving Repr, DecidableEq

/-- Per-write store-fault flags for one `handle_click` execution, in the
order the handler issues the writes (src/bot.py lines 227-241).  The Python
handler ignores every one of these methods' return values. -/
structure ClickOks where
  okBal : Bool
  okClick : Bool
  okTx : Bool
  okRefBal : Bool
  okRefTx : Bool
deriving Repr, DecidableEq

/-- All store writes succeed. -/
def ClickOks.allOk : ClickOks := ⟨true, true, true, true, true⟩

/-- The cooldown test of `handle_click` (src/bot.py lines 220-223):
`if last_click and (current_time - last_click) < Config.CLICK_COOLDOWN`.
Python truthiness: `last_click` of `None` — and also of `0` — fails the
first conjunct, so the gate allows.  Returns `some remaining` when the
handler answers with the wait message, `none` when the click proceeds. -/
def click_gate (user : UserRow) (now : Int) : Option Int :=
  match user.last_click with
  | none => none
  | some t =>
    if t ≠ 0 ∧ now - t < CLICK_COOLDOWN then some (CLICK_COOLDOWN - (now - t))
    else none

/-- The mutation phase of `handle_click` (src/bot.py lines 225-241), executed
after the gate passed on the snapshot `user` read at line 211: credit the
click reward, stamp `last_click`, append the `click` transaction, and — when
the snapshot's `referrer_id` is TRUTHY (line 233 `if referrer_id:` — a
stored `None` and also a stored `0` are falsy and skipped) — credit the
referrer with `reward * (CLICK_REFERRAL_PERCENT / 100)` and append their
`referral_income` transaction. -/
def click_apply (db : DB) (user : UserRow) (uid : Int) (now : Int)
    (username : String) (oks : ClickOks) : DB :=
  let db1 := (update_balance db uid CLICK_REWARD oks.okBal).2
  let db2 := (update_last_click db1 uid now oks.okClick).2
  let db3 := (add_transaction db2 uid CLICK_REWARD "click" "Кликер" oks.okTx).2
  match user.referrer_id with
  | none => db3
  | some r =>
    if r = 0 then db3
    else
      let referral_bonus := CLICK_REWARD * (CLICK_REFERRAL_PERCENT / 100)
      let db4 := (update_balance db3 r referral_bonus oks.okRefBal).2
      (add_transaction db4 r referral_bonus "referral_income"
        ("10% от клика пользователя " ++ username) oks.okRefTx).2

/-- `handle_click` (src/bot.py lines 202-253): subscription gate, user
lookup, cooldown gate on the read snapshot, then the mutation phase. -/
def handle_click (db : DB) (uid : Int) (now : Int) (username : String)
    (sponsorFail : Bool) (oks : ClickOks) : ClickResult × DB :=
  if check_subscriptions db uid sponsorFail = false then (.subRequired, db)
  else
    match get_user db uid with
    | none => (.noUser, db)
    | some user =>
      match click_gate user now with
      | some remaining => (.cooldown remaining, db)
      | none => (.rewarded, click_apply db user uid now username oks)

/-- Two executions of `handle_click` for the same user, interleaved as two
concurrent Telegram callbacks can be: both executions read the user snapshot
(src/bot.py line 211) from the same initial store state before either runs
its mutation phase; then execution A's gate-and-apply runs, then execution
B's.  Each phase is exactly the corresponding piece of `handle_click`. -/
def handle_click_interleaved (db : DB) (uid : Int) (now : Int)
    (username : String) (sponsorFail : Bool) (oks : ClickOks) :
    ClickResult × ClickResult × DB :=
  if check_subscriptions db uid sponsorFail = false then
    (.subRequired, .subRequired, db)
  else
    match get_user db uid, get_user db uid with
    | some uA, some uB =>
      let pA : ClickResult × DB :=
        match click_gate uA now with
        | some remaining => (.cooldown remaining, db)
        | none => (.rewarded, click_apply db uA uid now username oks)
      let pB : ClickResult × DB :=
        match click_gate uB now with
        | some remaining => (.cooldown remaining, pA.2)
        | none => (.rewarded, click_apply pA.2 uB uid now username oks)
      (pA.1, pB.1, pB.2)
    | _, _ => (.noUser, .noUser, db)

/-- Result of the `withdraw_<amount>` callback handler, one constructor per
return path of `handle_withdraw` (src/bot.py lines 282-340); the
parse-failure answer for a non-numeric suffix (lines 287-291) happens before
any store access and is not modelled. -/
inductive WithdrawResult
  | noUser
  | insufficientBalance (current : ℚ)
  | insufficientReferrals (active : Nat)
  | createError
  | created (wid : Int)
deriving Repr, DecidableEq

/-- Per-write store-fault flags for one `handle_withdraw` execution, in the
order the handler issues the writes (src/bot.py lines 310-317).  The handler
checks `create_withdrawal`'s result (line 311) and ignores the results of
`update_balance` and `add_transaction`. -/
structure WithdrawOks where
  okCreate : Bool
  okBal : Bool
  okTx : Bool
deriving Repr, DecidableEq

/-- All store writes succeed. -/
def WithdrawOks.allOk : WithdrawOks := ⟨true, true, true⟩

/-- The mutation phase of `handle_withdraw` (src/bot.py lines 309-317),
executed after the balance and referral gates passed: insert the pending
row (checked, line 311), then debit the balance and append the `withdrawal`
transaction, ignoring both results. -/
def withdraw_apply (db : DB) (uid : Int) (amount : ℚ) (oks : WithdrawOks) :
    WithdrawResult × DB :=
  match create_withdrawal db uid amount oks.okCreate with
  | none => (.createError, db)
  | some (w, db1) =>
    let db2 := (update_balance db1 uid (-amount) oks.okBal).2
    let db3 := (add_transaction db2 uid (-amount) "withdrawal"
      ("Вывод #" ++ toString w.id) oks.okTx).2
    (.created w.id, db3)

/-- `handle_withdraw` (src/bot.py lines 282-340).  `amount` is the number
parsed by `float(callback.data.split("_")[1])` from the attacker-controlled
callback payload `withdraw_<x>`.  `active_ref` is the active-referral count;
modelled from the spec: it is produced by the server-side RPC
`get_active_referrals`, not under src/, and the spec (§4.2) has the engine
consume it as an opaque count.  Note this handler performs NO subscription
check — only the separate `withdraw_menu` handler is gated.  The admin
notification (lines 330-340) is fire-and-forget and touches no store
state. -/
def handle_withdraw (db : DB) (uid : Int) (amount : ℚ) (active_ref : Nat)
    (oks : WithdrawOks) : WithdrawResult × DB :=
  match get_user db uid with
  | none => (.noUser, db)
  | some user =>
    if user.balance < amount then (.insufficientBalance user.balance, db)
    else if active_ref < 3 then (.insufficientReferrals active_ref, db)
    else withdraw_apply db uid amount oks

/-- Two executions of `handle_withdraw` for the same user, interleaved as
two concurrent Telegram callbacks can be: both executions read the user
snapshot (src/bot.py line 293) from the same initial store state before
either runs its mutation phase; then execution A's gate-and-apply runs,
then execution B's — B's balance gate is still judged on its stale
snapshot, while its read-modify-write debit applies to A's committed
state.  Each phase is exactly the corresponding piece of
`handle_withdraw`. -/
def handle_withdraw_interleaved (db : DB) (uid : Int) (amount : ℚ)
    (active_ref : Nat) (oks : WithdrawOks) :
    WithdrawResult × WithdrawResult × DB :=
  match get_user db uid, get_user db uid with
  | some uA, some uB =>
    let pA : WithdrawResult × DB :=
      if uA.balance < amount then (.insufficientBalance uA.balance, db)
      else if active_ref < 3 then (.insufficientReferrals active_ref, db)
      else withdraw_apply db uid amount oks
    let pB : WithdrawResult × DB :=
      if uB.balance < amount then (.insufficientBalance uB.balance, pA.2)
      else if active_ref < 3 then (.insufficientReferrals active_ref, pA.2)
      else withdraw_apply pA.2 uid amount oks
    (pA.1, pB.1, pB.2)
  | _, _ => (.noUser, .noUser, db)

/-- Result of the `withdraw_menu` callback handler (src/bot.py lines
255-280): the sponsor wall, or the menu of configured withdrawal amounts. -/
inductive WithdrawMenuResult
  | subRequired
  | menu (amounts : List ℚ)
deriving Repr, DecidableEq

/-- `handle_withdraw_menu` (src/bot.py lines 255-280): the only
subscription-gated step of the withdrawal flow. -/
def handle_withdraw_menu (db : DB) (uid : Int) (sponsorFail : Bool) :
    WithdrawMenuResult :=
  if check_subscriptions db uid sponsorFail = false then .subRequired
  else .menu WITHDRAWAL_AMOUNTS

/-- `cmd_start` (src/bot.py lines 83-110), the registration path: the
`/start <arg>` payload is parsed to an integer referrer id when possible
(`payload = some r` models a parseable argument), self-referral is
normalized to no referrer (lines 96-97), then `create_user` runs.  The
subsequent subscription check and menu rendering touch no store state
relevant to the claims. -/
def cmd_start (db : DB) (uid : Int) (username : String)
    (payload : Option Int) (now : Int) : DB :=
  let referrer_id : Option Int :=
    match payload with
    | some r => if r = uid then none else some r
    | none => none
  create_user db uid username referrer_id now

/-- Result of the `profile` callback handler (src/bot.py lines 342-387):
the rendered balance and the "next click" indicator (`some remaining`
exactly when the handler renders a wait duration, lines 362-370; note line
362's `if last_click:` — a stored `0` is falsy and renders "now"). -/
inductive ProfileResult
  | subRequired
  | noUser
  | profile (balance : ℚ) (next_click : Option Int)
deriving Repr, DecidableEq

/-- `handle_profile` (src/bot.py lines 342-387): read-only. -/
def handle_profile (db : DB) (uid : Int) (now : Int) (sponsorFail : Bool) :
    ProfileResult :=
  if check_subscriptions db uid sponsorFail = false then .subRequired
  else
    match get_user db uid with
    | none => .noUser
    | some user =>
      let next_click : Option Int :=
        match user.last_click with
        | none => none
        | some t =>
          if t ≠ 0 ∧ now - t < CLICK_COOLDOWN then
            some (CLICK_COOLDOWN - (now - t))
          else none
      .profile user.balance next_click

/-- Sum of the amounts of all transactions recorded for `uid` — the
right-hand side of the spec's conservation invariant. -/
def txSum (db : DB) (uid : Int) : ℚ :=
  ((db.transactions.filter (fun t => t.user_id == uid)).map
    (fun t => t.amount)).sum

/-- The `referral_income` transactions recorded for `uid`. -/
def refIncomeTxs (db : DB) (uid : Int) : List TxnRow :=
  db.transactions.filter
    (fun t => t.user_id == uid && t.type == "referral_income")

/-- The Eligibility Evaluator contract exactly as the spec words it (§4.2):
complete iff there are zero configured sponsors, or every configured
sponsor's recorded `isSubscribed` flag for this user is true (a missing row
counts as not subscribed).  Stated from the spec's words, to be compared
with `check_subscriptions`, which is translated from the code. -/
def specSubscriptionComplete (db : DB) (uid : Int) : Bool :=
  db.sponsors.isEmpty ||
    db.sponsors.all (fun s => db.user_sponsors.any
      (fun r => r.user_id == uid && r.sponsor_id == s.id && r.is_subscribed))

/-! ### Concrete store states used to evaluate the handlers -/

/-- The empty store. -/
def emptyDB : DB := ⟨[], [], [], [], [], 1⟩

/-- One fresh user 7: balance 0, never clicked, no referrer. -/
def dbFresh7 : DB := ⟨[⟨7, "a", none, 0, 0, none⟩], [], [], [], [], 1⟩

/-- The row of user 7 with balance 20. -/
def rich7row : UserRow := ⟨7, "a", none, 0, 20, none⟩

/-- User 7 with balance 20 (enough for a 15-STAR withdrawal). -/
def dbRich7 : DB := ⟨[rich7row], [], [], [], [], 1⟩

/-- User 7 whose stored `last_click` is the timestamp 0. -/
def dbClickedAt0 : DB := ⟨[⟨7, "a", none, 0, 0, some 0⟩], [], [], [], [], 1⟩

/-- The row of user 7 with `last_click` 500. -/
def clicked500row : UserRow := ⟨7, "a", none, 0, 0, some 500⟩

/-- User 7 whose stored `last_click` is the timestamp 500. -/
def dbClickedAt500 : DB := ⟨[clicked500row], [], [], [], [], 1⟩

/-- An established user 7: balance 5, a recorded click, referrer 9. -/
def dbEstablished7 : DB := ⟨[⟨7, "a", some 9, 0, 5, some 1000⟩], [], [], [], [], 1⟩

/-- One configured sponsor (id 1) and no recorded sponsor-status rows. -/
def dbOneSponsor : DB := ⟨[⟨7, "a", none, 0, 0, none⟩], [], [], [], [⟨1⟩], 1⟩

/-- The row of user 7, referred by user 9. -/
def referred7row : UserRow := ⟨7, "b", some 9, 0, 0, none⟩

/-- The row of user 9 (the referrer), balance 1. -/
def referrer9row : UserRow := ⟨9, "a", none, 0, 1, none⟩

/-- User 7 referred by user 9; user 9 has balance 1. -/
def dbReferred : DB := ⟨[referred7row, referrer9row], [], [], [], [], 1⟩

/-- The row of user 7 whose stored `referrer_id` is the id 0. -/
def referredZero7row : UserRow := ⟨7, "b", some 0, 0, 0, none⟩

/-- The row of user 0 (the would-be referrer), balance 1. -/
def referrer0row : UserRow := ⟨0, "z", none, 0, 1, none⟩

/-- User 7 with `referrer_id` 0 recorded (reachable via `/start 0`,
src/bot.py lines 92-99); user 0 exists with balance 1. -/
def dbReferredZero : DB := ⟨[referredZero7row, referrer0row], [], [], [], [], 1⟩

/-- The store after: register user 7, one rewarded click at t = 1000, then a
repeated `/start` registration at t = 2000 (the C2 failing sequence). -/
def dbRestartSeq : DB :=
  create_user
    (handle_click (create_user emptyDB 7 "a" none 0) 7 1000 "a" false
      ClickOks.allOk).2
    7 "a" none 2000

/-! ### Helper lemmas about the store operations -/

theorem find_user_update_user_row (users : List UserRow) (uid uid' : Int)
    (f : UserRow → UserRow) (hf : ∀ v, (f v).user_id = v.user_id) :
    find_user (update_user_row users uid f) uid' =
      if uid' = uid then (find_user users uid').map f
      else find_user users uid' := by
  induction users with
  | nil => simp [find_user, update_user_row]
  | cons u us ih =>
    simp only [update_user_row, List.map_cons, beq_iff_eq] at *
    by_cases hu : u.user_id = uid
    · by_cases he : uid' = uid
      · subst he
        simp [find_user, hu, hf]
      · have hid : (f u).user_id = uid := by rw [hf]; exact hu
        simp [find_user, hu, hid, Ne.symm he, ih, he]
    · by_cases hp : u.user_id = uid'
      · have he : ¬ uid' = uid := fun hcon => hu (hp.trans hcon)
        simp [find_user, hu, hp, he]
      · simp [find_user, hu, hp, ih]

theorem get_user_ne_of_users_update (db : DB) (users' : List UserRow)
    (uid uid' : Int) (f : UserRow → UserRow)
    (hf : ∀ v, (f v).user_id = v.user_id)
    (h : uid' ≠ uid)
    (husers : users' = update_user_row db.users uid f) :
    find_user users' uid' = get_user db uid' := by
  rw [husers, find_user_update_user_row _ _ _ _ hf, if_neg h]; rfl

theorem get_user_self_of_users_update (db : DB) (uid : Int)
    (f : UserRow → UserRow) (u : UserRow)
    (hf : ∀ v, (f v).user_id = v.user_id)
    (hget : get_user db uid = some u) :
    find_user (update_user_row db.users uid f) uid = some (f u) := by
  rw [find_user_update_user_row _ _ _ _ hf, if_pos rfl]
  simp only [get_user] at hget
  rw [hget]; rfl

theorem update_balance_snd_of_get (db : DB) (uid : Int) (a : ℚ) (u : UserRow)
    (hget : get_user db uid = some u) :
    (update_balance db uid a true).2 =
      { db with users :=
          update_user_row db.users uid (fun v => { v with balance := u.balance + a }) } := by
  simp [update_balance, hget]

theorem update_balance_fail (db : DB) (uid : Int) (a : ℚ) :
    (update_balance db uid a false).2 = db := by
  simp [update_balance]

theorem update_balance_tables (db : DB) (uid : Int) (a : ℚ) (ok : Bool) :
    ((update_balance db uid a ok).2).transactions = db.transactions ∧
    ((update_balance db uid a ok).2).withdrawals = db.withdrawals ∧
    ((update_balance db uid a ok).2).user_sponsors = db.user_sponsors ∧
    ((update_balance db uid a ok).2).next_withdrawal_id = db.next_withdrawal_id := by
  unfold update_balance
  split
  · exact ⟨rfl, rfl, rfl, rfl⟩
  · split <;> exact ⟨rfl, rfl, rfl, rfl⟩

theorem update_last_click_tables (db : DB) (uid : Int) (ts : Int) (ok : Bool) :
    ((update_last_click db uid ts ok).2).transactions = db.transactions ∧
    ((update_last_click db uid ts ok).2).withdrawals = db.withdrawals ∧
    ((update_last_click db uid ts ok).2).user_sponsors = db.user_sponsors ∧
    ((update_last_click db uid ts ok).2).next_withdrawal_id = db.next_withdrawal_id := by
  unfold update_last_click
  split <;> exact ⟨rfl, rfl, rfl, rfl⟩

theorem add_transaction_users (db : DB) (uid : Int) (a : ℚ) (ty desc : String)
    (ok : Bool) :
    ((add_transaction db uid a ty desc ok).2).users = db.users ∧
    ((add_transaction db uid a ty desc ok).2).withdrawals = db.withdrawals ∧
    ((add_transaction db uid a ty desc ok).2).user_sponsors = db.user_sponsors := by
  unfold add_transaction
  split <;> exact ⟨rfl, rfl, rfl⟩

theorem add_transaction_txs (db : DB) (uid : Int) (a : ℚ) (ty desc : String) :
    ((add_transaction db uid a ty desc true).2).transactions =
      db.transactions ++ [{ user_id := uid, amount := a, type := ty,
                            description := desc }] := by
  simp [add_transaction]

theorem add_transaction_fail (db : DB) (uid : Int) (a : ℚ) (ty desc : String) :
    (add_transaction db uid a ty desc false).2 = db := by
  simp [add_transaction]

theorem create_withdrawal_some (db : DB) (uid : Int) (a : ℚ) :
    create_withdrawal db uid a true =
      some ({ id := db.next_withdrawal_id, user_id := uid, amount := a,
              status := "pending" },
            { db with
                withdrawals := db.withdrawals ++
                  [{ id := db.next_withdrawal_id, user_id := uid, amount := a,
                     status := "pending" }],
                next_withdrawal_id := db.next_withdrawal_id + 1 }) := by
  simp [create_withdrawal]

theorem check_subscriptions_congr (db db' : DB) (uid : Int) (fail : Bool)
    (h : db'.user_sponsors = db.user_sponsors) :
    check_subscriptions db' uid fail = check_subscriptions db uid fail := by
  simp [check_subscriptions, get_user_sponsors_status, h]

theorem all_subscribed_eq_true_iff (l : List UserSponsorRow) :
    all_subscribed l = true ↔ ∀ r ∈ l, r.is_subscribed = true := by
  induction l with
  | nil => simp [all_subscribed]
  | cons r rs ih =>
    simp only [all_subscribed, List.mem_cons]
    by_cases hr : r.is_subscribed = false
    · simp [hr]
    · have hr' : r.is_subscribed = true := by
        cases h : r.is_subscribed
        · exact absurd h hr
        · rfl
      simp [hr', ih]

theorem update_last_click_snd (db : DB) (uid : Int) (ts : Int) :
    (update_last_click db uid ts true).2 =
      { db with users :=
          update_user_row db.users uid (fun v => { v with last_click := some ts }) } := by
  simp [update_last_click]

theorem update_balance_none (db : DB) (uid : Int) (a : ℚ) (ok : Bool)
    (h : get_user db uid = none) : (update_balance db uid a ok).2 = db := by
  unfold update_balance
  split
  · rfl
  · rw [h]

theorem get_user_update_balance_ne (db : DB) (uid : Int) (a : ℚ) (ok : Bool)
    (uid' : Int) (h : uid' ≠ uid) :
    get_user ((update_balance db uid a ok).2) uid' = get_user db uid' := by
  unfold update_balance
  split
  · rfl
  · split
    · rfl
    · show find_user (update_user_row db.users uid _) uid' = _
      rw [find_user_update_user_row]
      · rw [if_neg h]; rfl
      · exact fun v => rfl

theorem get_user_update_balance_self (db : DB) (uid : Int) (a : ℚ)
    (u : UserRow) (hget : get_user db uid = some u) :
    get_user ((update_balance db uid a true).2) uid =
      some { u with balance := u.balance + a } := by
  rw [update_balance_snd_of_get db uid a u hget]
  exact get_user_self_of_users_update db uid _ u (fun v => rfl) hget

theorem get_user_update_last_click_ne (db : DB) (uid ts : Int) (ok : Bool)
    (uid' : Int) (h : uid' ≠ uid) :
    get_user ((update_last_click db uid ts ok).2) uid' = get_user db uid' := by
  unfold update_last_click
  split
  · rfl
  · show find_user (update_user_row db.users uid _) uid' = _
    rw [find_user_update_user_row]
    · rw [if_neg h]; rfl
    · exact fun v => rfl

theorem get_user_update_last_click_self (db : DB) (uid ts : Int)
    (u : UserRow) (hget : get_user db uid = some u) :
    get_user ((update_last_click db uid ts true).2) uid =
      some { u with last_click := some ts } := by
  rw [update_last_click_snd db uid ts]
  exact get_user_self_of_users_update db uid _ u (fun v => rfl) hget

theorem get_user_add_transaction (db : DB) (uid : Int) (a : ℚ)
    (ty desc : String) (ok : Bool) (uid' : Int) :
    get_user ((add_transaction db uid a ty desc ok).2) uid' = get_user db uid' := by
  unfold add_transaction
  split <;> rfl

theorem update_balance_last_click_map (db : DB) (uid : Int) (a : ℚ) (ok : Bool)
    (uid' : Int) :
    (get_user ((update_balance db uid a ok).2) uid').map (fun v => v.last_click) =
      (get_user db uid').map (fun v => v.last_click) := by
  unfold update_balance
  split
  · rfl
  · split
    · rfl
    · show (find_user (update_user_row db.users uid _) uid').map _ = _
      rw [find_user_update_user_row]
      · by_cases h : uid' = uid
        · subst h
          rw [if_pos rfl]
          show (Option.map _ (get_user db uid')).map _ = _
          cases get_user db uid' <;> rfl
        · rw [if_neg h]
          rfl
      · exact fun v => rfl

theorem click_apply_user_sponsors (db : DB) (user : UserRow) (uid now : Int)
    (nm : String) (oks : ClickOks) :
    (click_apply db user uid now nm oks).user_sponsors = db.user_sponsors := by
  cases hr : user.referrer_id with
  | none =>
    simp only [click_apply, hr]
    rw [(add_transaction_users _ _ _ _ _ _).2.2,
        (update_last_click_tables _ _ _ _).2.2.1,
        (update_balance_tables _ _ _ _).2.2.1]
  | some r =>
    by_cases h0 : r = 0
    · simp only [click_apply, hr, if_pos h0]
      rw [(add_transaction_users _ _ _ _ _ _).2.2,
          (update_last_click_tables _ _ _ _).2.2.1,
          (update_balance_tables _ _ _ _).2.2.1]
    · simp only [click_apply, hr, if_neg h0]
      rw [(add_transaction_users _ _ _ _ _ _).2.2,
          (update_balance_tables _ _ _ _).2.2.1,
          (add_transaction_users _ _ _ _ _ _).2.2,
          (update_last_click_tables _ _ _ _).2.2.1,
          (update_balance_tables _ _ _ _).2.2.1]

theorem click_apply_last_click (db : DB) (user : UserRow) (uid now : Int)
    (nm : String) (u : UserRow) (hget : get_user db uid = some u) :
    (get_user (click_apply db user uid now nm ClickOks.allOk) uid).map
      (fun v => v.last_click) = some (some now) := by
  have h1 : get_user ((update_balance db uid CLICK_REWARD true).2) uid =
      some { u with balance := u.balance + CLICK_REWARD } :=
    get_user_update_balance_self db uid CLICK_REWARD u hget
  have h2 : get_user ((update_last_click
      ((update_balance db uid CLICK_REWARD true).2) uid now true).2) uid =
      some { { u with balance := u.balance + CLICK_REWARD } with
             last_click := some now } :=
    get_user_update_last_click_self _ uid now _ h1
  have h3 : get_user ((add_transaction
      ((update_last_click
        ((update_balance db uid CLICK_REWARD true).2) uid now true).2)
      uid CLICK_REWARD "click" "Кликер" true).2) uid =
      some { { u with balance := u.balance + CLICK_REWARD } with
             last_click := some now } := by
    rw [get_user_add_transaction]
    exact h2
  cases hr : user.referrer_id with
  | none =>
    simp only [click_apply, ClickOks.allOk, hr]
    rw [h3]
    rfl
  | some r =>
    by_cases h0 : r = 0
    · simp only [click_apply, ClickOks.allOk, hr, if_pos h0]
      rw [h3]
      rfl
    · simp only [click_apply, ClickOks.allOk, hr, if_neg h0]
      rw [get_user_add_transaction, update_balance_last_click_map, h3]
      rfl

/-! ### Claim theorems -/

/-- C1 (counterexample): the three effects of a withdrawal request are NOT
atomic.  User 7 has balance 20 and 3 active referrals and withdraws 15; the
`create_withdrawal` insert succeeds but the balance-update store call fails
(its `False` return is ignored by the handler, src/bot.py line 316): the
handler still reports success, the pending Withdrawal row of 15 exists, and
the balance is still 20 — a state with the row but no debit is observable,
contradicting the claim. -/
theorem C1_partial_withdrawal_observable :
    (handle_withdraw dbRich7 7 15 3 ⟨true, false, true⟩).1 = .created 1 ∧
    (handle_withdraw dbRich7 7 15 3 ⟨true, false, true⟩).2.withdrawals =
      [{ id := 1, user_id := 7, amount := 15, status := "pending" }] ∧
    (get_user (handle_withdraw dbRich7 7 15 3 ⟨true, false, true⟩).2 7).map
      (fun u => u.balance) = some 20 := by
  refine ⟨rfl, rfl, ?_⟩
  rfl

/-- C2 (code bug, failing input): conservation is violated on an all-success
run.  Register user 7, click once at t = 1000 (balance 0.2, one `click`
transaction of 0.2), then a repeated `/start` registration at t = 2000: the
upsert in `Database.create_user` resets the balance to 0 while the
append-only transaction log still sums to 0.2, so
`balance == sum(transactions)` no longer holds after a committed
`registerUser`. -/
theorem C2_conservation_violated_by_repeat_start :
    (get_user dbRestartSeq 7).map (fun u => u.balance) = some 0 ∧
    txSum dbRestartSeq 7 = 1/5 ∧
    (get_user dbRestartSeq 7).map (fun u => u.balance) ≠
      some (txSum dbRestartSeq 7) := by
  have h2 : txSum dbRestartSeq 7 = 1/5 := by
    norm_num [dbRestartSeq, emptyDB, txSum, create_user, handle_click,
      check_subscriptions, get_user_sponsors_status, get_user, find_user,
      click_gate, click_apply, update_balance, update_last_click,
      add_transaction, update_user_row, ClickOks.allOk, CLICK_REWARD]
  have h1 : (get_user dbRestartSeq 7).map (fun u => u.balance) = some 0 := rfl
  refine ⟨h1, h2, ?_⟩
  rw [h1, h2]
  intro h
  have h0 : (0 : ℚ) = 1/5 := Option.some.inj h
  norm_num at h0

/-- C3 (code bug, failing input): repeated registration is NOT a no-op
upsert.  User 7 exists with balance 5, `last_click` 1000 and referrer 9; a
repeated `/start` (`Database.create_user`, whose supabase `upsert` with
`on_conflict="user_id"` updates every supplied column of the existing row)
resets the balance to 0, `last_click` to None, and overwrites the existing
`referrer_id` with None. -/
theorem C3_repeat_registration_resets_user :
    get_user dbEstablished7 7 =
      some { user_id := 7, username := "a", referrer_id := some 9,
             created_at := 0, balance := 5, last_click := some 1000 } ∧
    get_user (create_user dbEstablished7 7 "bob" none 2000) 7 =
      some { user_id := 7, username := "bob", referrer_id := none,
             created_at := 2000, balance := 0, last_click := none } := by
  exact ⟨rfl, rfl⟩

/-- C4 (counterexample): two concurrent clicks of the same user inside one
cooldown window can BOTH be rewarded.  Both executions read fresh user 7's
snapshot (`last_click` absent) from the same store state before either
writes — the interleaving the code permits because the balance mutation is a
read-modify-write, not a store-side conditional update — and both return the
reward result; the final balance holds two rewards (0.4). -/
theorem C4_concurrent_double_reward :
    (handle_click_interleaved dbFresh7 7 1000 "a" false ClickOks.allOk).1 =
      .rewarded ∧
    (handle_click_interleaved dbFresh7 7 1000 "a" false ClickOks.allOk).2.1 =
      .rewarded ∧
    (get_user
      (handle_click_interleaved dbFresh7 7 1000 "a" false ClickOks.allOk).2.2
      7).map (fun u => u.balance) = some (2/5) := by
  refine ⟨rfl, rfl, ?_⟩
  show some _ = _
  norm_num [CLICK_REWARD]

/-- C5 (counterexample): a user with NO recorded sponsor-status rows while a
sponsor IS configured is treated as subscribed by the code
(`check_subscriptions` maps the empty row list to `True`), whereas the
claim's contract (`specSubscriptionComplete`, worded from the spec) treats
such a user as not subscribed. -/
theorem C5_no_rows_treated_subscribed :
    dbOneSponsor.sponsors ≠ [] ∧
    get_user_sponsors_status dbOneSponsor 7 false = [] ∧
    check_subscriptions dbOneSponsor 7 false = true ∧
    specSubscriptionComplete dbOneSponsor 7 = false := by
  exact ⟨by decide, rfl, rfl, rfl⟩

/-- C7 (counterexample): a user whose stored `last_click` IS present (the
timestamp 0) and who is still inside the cooldown window (now = 100,
100 - 0 < 3600) is nevertheless rewarded and mutated: Python's
`if last_click and ...` treats the stored `0` as falsy, so the gate allows
instead of returning CooldownActive(3500) as the claim requires. -/
theorem C7_zero_last_click_not_denied :
    (get_user dbClickedAt0 7).map (fun u => u.last_click) = some (some 0) ∧
    ((100 : Int) - 0 < CLICK_COOLDOWN) ∧
    (handle_click dbClickedAt0 7 100 "a" false ClickOks.allOk).1 = .rewarded ∧
    (get_user (handle_click dbClickedAt0 7 100 "a" false ClickOks.allOk).2
      7).map (fun u => u.balance) = some (1/5) := by
  refine ⟨rfl, by decide, rfl, ?_⟩
  show some _ = _
  norm_num [CLICK_REWARD]

/-- C9 (code bug, failing input): the callback payload `withdraw_-5` parses
to the amount -5; user 7 with balance 0 and 3 active referrals passes the
balance gate (0 < -5 is false), so the handler creates a Withdrawal row with
the NON-positive amount -5 and then "debits" -(-5): the balance INCREASES
from 0 to 5 — the created row's amount is not positive and the balance
change is an increment, contradicting the claim. -/
theorem C9_negative_amount_withdrawal :
    (handle_withdraw dbFresh7 7 (-5) 3 WithdrawOks.allOk).1 = .created 1 ∧
    (handle_withdraw dbFresh7 7 (-5) 3 WithdrawOks.allOk).2.withdrawals =
      [{ id := 1, user_id := 7, amount := -5, status := "pending" }] ∧
    (get_user (handle_withdraw dbFresh7 7 (-5) 3
      WithdrawOks.allOk).2 7).map (fun u => u.balance) = some 5 := by
  refine ⟨by decide, by decide, ?_⟩
  show some _ = _
  norm_num

/-- C5 (amended): `check_subscriptions` is complete iff every RECORDED
sponsor-status row for the user has `is_subscribed` true — vacuously true
when no rows are recorded, regardless of how many sponsors are configured
(the configured `sponsors` table plays no part in the test). -/
theorem C5_recorded_rows_law (db : DB) (uid : Int) :
    check_subscriptions db uid false = true ↔
      ∀ r ∈ db.user_sponsors.filter (fun r => r.user_id == uid),
        r.is_subscribed = true := by
  have hrows : get_user_sponsors_status db uid false =
      db.user_sponsors.filter (fun r => r.user_id == uid) := rfl
  unfold check_subscriptions
  rw [hrows]
  rcases h : db.user_sponsors.filter (fun r => r.user_id == uid) with _ | ⟨a, l⟩
  · rw [h]
    simp
  · rw [h]
    simp [all_subscribed_eq_true_iff]

/-- C10: when the store query for the user's sponsor-subscription rows
fails, `get_user_sponsors_status` returns the empty list, the subscription
gate maps it to complete, and every subscription-gated handler — click,
profile, and the withdrawal flow's gated step (the `withdraw_menu` handler;
`handle_withdraw` itself performs no subscription check) — proceeds past the
gate as if subscription were complete. -/
theorem C10_sponsor_query_failure_fails_open (db : DB) (uid : Int) :
    get_user_sponsors_status db uid true = [] ∧
    check_subscriptions db uid true = true ∧
    (∀ now nm oks,
      (handle_click db uid now nm true oks).1 ≠ ClickResult.subRequired) ∧
    handle_withdraw_menu db uid true ≠ WithdrawMenuResult.subRequired ∧
    (∀ now, handle_profile db uid now true ≠ ProfileResult.subRequired) := by
  have hc : check_subscriptions db uid true = true := rfl
  refine ⟨rfl, hc, ?_, ?_, ?_⟩
  · intro now nm oks
    cases hget : get_user db uid with
    | none => simp [handle_click, hc, hget]
    | some user =>
      cases hgate : click_gate user now <;>
        simp [handle_click, hc, hget, hgate]
  · simp [handle_withdraw_menu, hc]
  · intro now
    cases hget : get_user db uid with
    | none => simp [handle_profile, hc, hget]
    | some user => simp [handle_profile, hc, hget]

/-- C6 (counterexample): under the concurrency the spec's §5 demands the
code tolerate, a withdrawal CAN drive the balance below zero.  User 7 has
balance 20 (non-negative) and 3 active referrals; two concurrent
`withdraw_15` callbacks both read the snapshot with balance 20, both pass
the balance gate, and both debits commit through the read-modify-write
`update_balance`: both report success and the final balance is
20 - 15 - 15 = -10 < 0. -/
theorem C6_concurrent_negative_balance :
    (get_user dbRich7 7).map (fun u => u.balance) = some 20 ∧
    (handle_withdraw_interleaved dbRich7 7 15 3 WithdrawOks.allOk).1 =
      .created 1 ∧
    (handle_withdraw_interleaved dbRich7 7 15 3 WithdrawOks.allOk).2.1 =
      .created 2 ∧
    (get_user (handle_withdraw_interleaved dbRich7 7 15 3
      WithdrawOks.allOk).2.2 7).map (fun u => u.balance) = some (-10) ∧
    ((-10 : ℚ) < 0) := by
  refine ⟨rfl, rfl, rfl, ?_, by norm_num⟩
  show some _ = _
  norm_num [rich7row]

/-- C6 (amended): a withdrawal request executed in ISOLATION never drives
the balance below zero.  If the user's stored balance is non-negative
before the call then (i) the request is rejected with the
insufficient-balance result carrying the current balance whenever
`balance < amount`, and (ii) whatever the gates and the per-write store
outcomes, the user's balance after the single call is still non-negative —
whereas two concurrent requests interleaved as in the counterexample can
both pass the balance gate on the same snapshot and drive it negative. -/
theorem C6_no_negative_balance (db : DB) (uid : Int) (amount : ℚ)
    (active_ref : Nat) (oks : WithdrawOks)
    (h0 : ∀ u, get_user db uid = some u → 0 ≤ u.balance) :
    (∀ u, get_user db uid = some u → u.balance < amount →
      (handle_withdraw db uid amount active_ref oks).1 =
        .insufficientBalance u.balance) ∧
    (∀ u', get_user (handle_withdraw db uid amount active_ref oks).2 uid =
      some u' → 0 ≤ u'.balance) := by
  constructor
  · intro u hget hlt
    simp [handle_withdraw, hget, hlt]
  · cases hget : get_user db uid with
    | none =>
      intro u' hu'
      simp only [handle_withdraw, hget] at hu'
      exact Option.noConfusion hu'
    | some user =>
      have hub : 0 ≤ user.balance := h0 user hget
      by_cases hb : user.balance < amount
      · intro u' hu'
        simp only [handle_withdraw, hget, if_pos hb] at hu'
        obtain rfl := Option.some.inj hu'
        exact hub
      · by_cases ha : active_ref < 3
        · intro u' hu'
          simp only [handle_withdraw, hget, if_neg hb, if_pos ha] at hu'
          obtain rfl := Option.some.inj hu'
          exact hub
        · cases hok : oks.okCreate with
          | false =>
            intro u' hu'
            have hcw : create_withdrawal db uid amount oks.okCreate = none := by
              rw [hok]
              rfl
            simp only [handle_withdraw, withdraw_apply, hget, if_neg hb,
              if_neg ha, hcw] at hu'
            obtain rfl := Option.some.inj hu'
            exact hub
          | true =>
            intro u' hu'
            have hcw : create_withdrawal db uid amount oks.okCreate =
                some ({ id := db.next_withdrawal_id, user_id := uid,
                        amount := amount, status := "pending" },
                      { db with
                          withdrawals := db.withdrawals ++
                            [{ id := db.next_withdrawal_id, user_id := uid,
                               amount := amount, status := "pending" }],
                          next_withdrawal_id := db.next_withdrawal_id + 1 }) := by
              rw [hok]
              exact create_withdrawal_some db uid amount
            simp only [handle_withdraw, withdraw_apply, hget, if_neg hb,
              if_neg ha, hcw] at hu'
            rw [get_user_add_transaction] at hu'
            have hget1 : get_user
                { db with
                    withdrawals := db.withdrawals ++
                      [{ id := db.next_withdrawal_id, user_id := uid,
                         amount := amount, status := "pending" }],
                    next_withdrawal_id := db.next_withdrawal_id + 1 } uid =
                some user := hget
            cases hbal : oks.okBal with
            | false =>
              rw [hbal, update_balance_fail] at hu'
              rw [hget1] at hu'
              obtain rfl := Option.some.inj hu'
              exact hub
            | true =>
              rw [hbal, get_user_update_balance_self _ uid (-amount) user
                hget1] at hu'
              obtain rfl := Option.some.inj hu'
              have hle : amount ≤ user.balance := not_lt.mp hb
              show (0 : ℚ) ≤ user.balance + -amount
              linarith

/-- Witness for C6: user 7 with balance 20 requests 25 and is rejected with
the insufficient-balance result carrying the current balance. -/
theorem C6_no_negative_balance_witness :
    (handle_withdraw dbRich7 7 25 3 WithdrawOks.allOk).1 =
      WithdrawResult.insufficientBalance 20 := by
  have h0 : ∀ u, get_user dbRich7 7 = some u → 0 ≤ u.balance := by
    intro u hu
    have hu' : some rich7row = some u := hu
    obtain rfl := Option.some.inj hu'
    show (0 : ℚ) ≤ 20
    norm_num
  exact (C6_no_negative_balance dbRich7 7 25 3 WithdrawOks.allOk h0).1
    rich7row rfl (by show (20 : ℚ) < 25; norm_num)

/-- C1 (amended): once the balance and referral gates pass, the three
effects of a withdrawal request are three INDEPENDENT store writes.  A
failed `create_withdrawal` insert aborts the request with no effect; after
a successful insert the handler reports success unconditionally, the
pending Withdrawal row is appended, the balance is debited only if its own
store write succeeds, and the `withdrawal` transaction is appended only if
its own store write succeeds. -/
theorem C1_withdraw_three_independent_writes (db : DB) (uid : Int)
    (amount : ℚ) (active_ref : Nat) (user : UserRow)
    (hget : get_user db uid = some user)
    (hb : ¬ user.balance < amount) (ha : ¬ active_ref < 3) :
    (∀ okBal okTx,
      handle_withdraw db uid amount active_ref ⟨false, okBal, okTx⟩ =
        (.createError, db)) ∧
    (∀ okBal okTx,
      (handle_withdraw db uid amount active_ref ⟨true, okBal, okTx⟩).1 =
        .created db.next_withdrawal_id ∧
      (handle_withdraw db uid amount active_ref
          ⟨true, okBal, okTx⟩).2.withdrawals =
        db.withdrawals ++ [{ id := db.next_withdrawal_id, user_id := uid,
                             amount := amount, status := "pending" }] ∧
      (get_user (handle_withdraw db uid amount active_ref
          ⟨true, okBal, okTx⟩).2 uid).map (fun u => u.balance) =
        some (if okBal then user.balance - amount else user.balance) ∧
      (handle_withdraw db uid amount active_ref
          ⟨true, okBal, okTx⟩).2.transactions =
        db.transactions ++
          (if okTx then
            [{ user_id := uid, amount := -amount, type := "withdrawal",
               description := "Вывод #" ++ toString db.next_withdrawal_id }]
           else [])) := by
  constructor
  · intro okBal okTx
    have hcw : create_withdrawal db uid amount false = none := rfl
    simp only [handle_withdraw, withdraw_apply, hget, if_neg hb, if_neg ha,
      hcw]
  · intro okBal okTx
    have hcw := create_withdrawal_some db uid amount
    have hget1 : get_user
        { db with
            withdrawals := db.withdrawals ++
              [{ id := db.next_withdrawal_id, user_id := uid,
                 amount := amount, status := "pending" }],
            next_withdrawal_id := db.next_withdrawal_id + 1 } uid =
        some user := hget
    refine ⟨?_, ?_, ?_, ?_⟩
    · simp only [handle_withdraw, withdraw_apply, hget, if_neg hb, if_neg ha,
        hcw]
    · simp only [handle_withdraw, withdraw_apply, hget, if_neg hb, if_neg ha,
        hcw]
      rw [(add_transaction_users _ _ _ _ _ _).2.1,
          (update_balance_tables _ _ _ _).2.1]
    · simp only [handle_withdraw, withdraw_apply, hget, if_neg hb, if_neg ha,
        hcw]
      rw [get_user_add_transaction]
      cases okBal with
      | false =>
        rw [update_balance_fail, hget1]
        simp
      | true =>
        rw [get_user_update_balance_self _ uid (-amount) user hget1]
        simp [sub_eq_add_neg]
    · simp only [handle_withdraw, withdraw_apply, hget, if_neg hb, if_neg ha,
        hcw]
      cases okTx with
      | false =>
        rw [add_transaction_fail, (update_balance_tables _ _ _ _).1]
        simp
      | true =>
        rw [add_transaction_txs, (update_balance_tables _ _ _ _).1]
        simp

/-- Witness for C1: with the insert failing, the request aborts with no
effect on the store (applies the per-write characterization at user 7 with
balance 20 withdrawing 15). -/
theorem C1_withdraw_three_independent_writes_witness :
    handle_withdraw dbRich7 7 15 3 ⟨false, true, true⟩ =
      (WithdrawResult.createError, dbRich7) :=
  (C1_withdraw_three_independent_writes dbRich7 7 15 3 rich7row
    rfl (by show ¬ (20 : ℚ) < 15; norm_num) (by decide)).1
    true true

/-- C7 (amended): the cooldown gate of `handle_click`, given the user exists
and the subscription gate passes: if the stored `last_click` is a timestamp
`t` that is PRESENT AND NONZERO and `now - t < cooldown`, the handler
returns CooldownActive with remaining `cooldown - (now - t)` and the store
is completely unchanged; if `last_click` is absent, or is the (falsy)
timestamp 0, or the window has elapsed, the reward proceeds. -/
theorem C7_cooldown_gate_behavior (db : DB) (uid now : Int) (nm : String)
    (sf : Bool) (oks : ClickOks) (user : UserRow)
    (hsub : ¬ check_subscriptions db uid sf = false)
    (hget : get_user db uid = some user) :
    (∀ t, user.last_click = some t → t ≠ 0 → now - t < CLICK_COOLDOWN →
      handle_click db uid now nm sf oks =
        (.cooldown (CLICK_COOLDOWN - (now - t)), db)) ∧
    ((∀ t, user.last_click = some t → t = 0 ∨ CLICK_COOLDOWN ≤ now - t) →
      (handle_click db uid now nm sf oks).1 = .rewarded) := by
  constructor
  · intro t ht hnz hlt
    have hgate : click_gate user now = some (CLICK_COOLDOWN - (now - t)) := by
      simp [click_gate, ht, hnz, hlt]
    simp [handle_click, hsub, hget, hgate]
  · intro hallow
    have hgate : click_gate user now = none := by
      cases ht : user.last_click with
      | none => simp [click_gate, ht]
      | some t =>
        rcases hallow t ht with h0 | hge
        · simp [click_gate, ht, h0]
        · have hnot : ¬ now - t < CLICK_COOLDOWN := not_lt.mpr hge
          simp [click_gate, ht, hnot]
    simp [handle_click, hsub, hget, hgate]

/-- Witness for C7: user 7 last clicked at t = 500; at now = 600 the handler
returns CooldownActive(3500) and leaves the store untouched. -/
theorem C7_cooldown_gate_behavior_witness :
    handle_click dbClickedAt500 7 600 "a" false ClickOks.allOk =
      (ClickResult.cooldown (CLICK_COOLDOWN - (600 - 500)), dbClickedAt500) :=
  (C7_cooldown_gate_behavior dbClickedAt500 7 600 "a" false ClickOks.allOk
    clicked500row (by decide) rfl).1 500 rfl (by decide) (by decide)

/-- C4 (amended): under SEQUENTIAL execution the cooldown does hold — after
a rewarded click at a nonzero timestamp `now`, a second click by the same
user at any `nowB` inside the window (`nowB - now < cooldown`) sees the
committed `last_click = now` and gets CooldownActive(cooldown - (nowB -
now)) — in contrast to the interleaved execution of the counterexample. -/
theorem C4_sequential_single_reward (db : DB) (uid now nowB : Int)
    (nm : String) (sf : Bool)
    (h1 : (handle_click db uid now nm sf ClickOks.allOk).1 = .rewarded)
    (hnz : now ≠ 0) (hlt : nowB - now < CLICK_COOLDOWN) :
    (handle_click (handle_click db uid now nm sf ClickOks.allOk).2 uid nowB
      nm sf ClickOks.allOk).1 =
      .cooldown (CLICK_COOLDOWN - (nowB - now)) := by
  by_cases hsub : check_subscriptions db uid sf = false
  · simp [handle_click, hsub] at h1
  · cases hget : get_user db uid with
    | none => simp [handle_click, hsub, hget] at h1
    | some user =>
      cases hgate : click_gate user now with
      | some rem => simp [handle_click, hsub, hget, hgate] at h1
      | none =>
        have hout : (handle_click db uid now nm sf ClickOks.allOk).2 =
            click_apply db user uid now nm ClickOks.allOk := by
          simp [handle_click, hsub, hget, hgate]
        rw [hout]
        have hsubs : check_subscriptions
            (click_apply db user uid now nm ClickOks.allOk) uid sf =
            check_subscriptions db uid sf :=
          check_subscriptions_congr db _ uid sf
            (click_apply_user_sponsors db user uid now nm ClickOks.allOk)
        have hlc : (get_user (click_apply db user uid now nm ClickOks.allOk)
            uid).map (fun v => v.last_click) = some (some now) :=
          click_apply_last_click db user uid now nm user hget
        obtain ⟨u', hu', hlc'⟩ : ∃ u',
            get_user (click_apply db user uid now nm ClickOks.allOk) uid =
              some u' ∧ u'.last_click = some now := by
          cases hgu : get_user (click_apply db user uid now nm ClickOks.allOk)
            uid with
          | none =>
            rw [hgu] at hlc
            exact Option.noConfusion hlc
          | some w =>
            rw [hgu] at hlc
            exact ⟨w, rfl, Option.some.inj hlc⟩
        have hgate2 : click_gate u' nowB =
            some (CLICK_COOLDOWN - (nowB - now)) := by
          simp [click_gate, hlc', hnz, hlt]
        have hsub2 : ¬ check_subscriptions
            (click_apply db user uid now nm ClickOks.allOk) uid sf = false := by
          rw [hsubs]
          exact hsub
        simp [handle_click, hsub2, hu', hgate2]

/-- Witness for C4: fresh user 7 clicks at t = 1000 (rewarded) and again at
t = 2000; the second sequential call gets CooldownActive(2600). -/
theorem C4_sequential_single_reward_witness :
    (handle_click (handle_click dbFresh7 7 1000 "a" false ClickOks.allOk).2 7
      2000 "a" false ClickOks.allOk).1 =
      ClickResult.cooldown (CLICK_COOLDOWN - (2000 - 1000)) :=
  C4_sequential_single_reward dbFresh7 7 1000 2000 "a" false rfl (by decide)
    (by decide)

/-- C8 (counterexample): a stored `referrer_id` of 0 — reachable via
`/start 0` (src/bot.py lines 92-99 store it; only self-referral is
normalized to None) — is present, and the would-be referrer user 0 exists
with balance 1, yet a rewarded click by user 7 credits no commission and
appends no `referral_income` transaction: bot.py line 233's
`if referrer_id:` treats the stored 0 as falsy and skips the whole referral
branch, contradicting the claim's "for every ... with a referrerId set". -/
theorem C8_zero_referrer_no_commission :
    referredZero7row.referrer_id = some 0 ∧
    (get_user dbReferredZero 0).map (fun u => u.balance) = some 1 ∧
    (handle_click dbReferredZero 7 1000 "b" false ClickOks.allOk).1 =
      .rewarded ∧
    (get_user (handle_click dbReferredZero 7 1000 "b" false
      ClickOks.allOk).2 0).map (fun u => u.balance) = some 1 ∧
    refIncomeTxs (handle_click dbReferredZero 7 1000 "b" false
      ClickOks.allOk).2 0 = [] := by
  exact ⟨rfl, rfl, rfl, rfl, rfl⟩

/-- C8 (amended): when a rewarded click is performed by a user whose
`referrer_id` is set to a NONZERO id of an existing other user (a stored 0
is falsy for bot.py line 233's `if referrer_id:` and earns nothing), the
referrer's balance is credited by exactly
`CLICK_REWARD * CLICK_REFERRAL_PERCENT / 100 = 1/50` (= 0.02) and exactly
one `referral_income` transaction of that amount, whose note names the
source user, is appended for the referrer. -/
theorem C8_referral_commission (db : DB) (uid r now : Int) (nm : String)
    (sf : Bool) (user ref : UserRow)
    (hsub : ¬ check_subscriptions db uid sf = false)
    (hget : get_user db uid = some user)
    (hr : user.referrer_id = some r) (hr0 : r ≠ 0) (hne : r ≠ uid)
    (hrefget : get_user db r = some ref)
    (hgate : click_gate user now = none) :
    (handle_click db uid now nm sf ClickOks.allOk).1 = .rewarded ∧
    (get_user (handle_click db uid now nm sf ClickOks.allOk).2 r).map
      (fun u => u.balance) = some (ref.balance + 1/50) ∧
    refIncomeTxs (handle_click db uid now nm sf ClickOks.allOk).2 r =
      refIncomeTxs db r ++
        [{ user_id := r, amount := 1/50, type := "referral_income",
           description := "10% от клика пользователя " ++ nm }] ∧
    CLICK_REWARD * (CLICK_REFERRAL_PERCENT / 100) = 1/50 := by
  have hout : handle_click db uid now nm sf ClickOks.allOk =
      (.rewarded, click_apply db user uid now nm ClickOks.allOk) := by
    simp [handle_click, hsub, hget, hgate]
  have happly : click_apply db user uid now nm ClickOks.allOk =
      (add_transaction
        ((update_balance
          ((add_transaction
            ((update_last_click
              ((update_balance db uid CLICK_REWARD true).2) uid now true).2)
            uid CLICK_REWARD "click" "Кликер" true).2)
          r (CLICK_REWARD * (CLICK_REFERRAL_PERCENT / 100)) true).2)
        r (CLICK_REWARD * (CLICK_REFERRAL_PERCENT / 100)) "referral_income"
        ("10% от клика пользователя " ++ nm) true).2 := by
    simp only [click_apply, ClickOks.allOk, hr, if_neg hr0]
  have hbonus : CLICK_REWARD * (CLICK_REFERRAL_PERCENT / 100) = 1/50 := by
    norm_num [CLICK_REWARD, CLICK_REFERRAL_PERCENT]
  have hCr : get_user
      ((add_transaction
        ((update_last_click
          ((update_balance db uid CLICK_REWARD true).2) uid now true).2)
        uid CLICK_REWARD "click" "Кликер" true).2) r = some ref := by
    rw [get_user_add_transaction, get_user_update_last_click_ne _ _ _ _ _ hne,
        get_user_update_balance_ne _ _ _ _ _ hne]
    exact hrefget
  refine ⟨by rw [hout], ?_, ?_, hbonus⟩
  · rw [hout]
    show (get_user (click_apply db user uid now nm ClickOks.allOk) r).map
      (fun u => u.balance) = _
    rw [happly, get_user_add_transaction,
        get_user_update_balance_self _ r _ ref hCr, hbonus]
    rfl
  · rw [hout]
    show refIncomeTxs (click_apply db user uid now nm ClickOks.allOk) r = _
    rw [happly]
    unfold refIncomeTxs
    rw [add_transaction_txs, (update_balance_tables _ _ _ _).1,
        add_transaction_txs, (update_last_click_tables _ _ _ _).1,
        (update_balance_tables _ _ _ _).1]
    rw [List.filter_append, List.filter_append]
    simp [hbonus]

/-- Witness for C8: user 7 (referred by user 9, balance 1) clicks at
t = 1000; user 9's balance becomes 1.02 and gains exactly one
referral-income transaction of 0.02. -/
theorem C8_referral_commission_witness :
    (handle_click dbReferred 7 1000 "b" false ClickOks.allOk).1 =
      ClickResult.rewarded ∧
    (get_user (handle_click dbReferred 7 1000 "b" false ClickOks.allOk).2
      9).map (fun u => u.balance) = some (1 + 1/50) ∧
    refIncomeTxs (handle_click dbReferred 7 1000 "b" false ClickOks.allOk).2
      9 =
      [{ user_id := 9, amount := 1/50, type := "referral_income",
         description := "10% от клика пользователя " ++ "b" }] := by
  have h := C8_referral_commission dbReferred 7 9 1000 "b" false referred7row
    referrer9row (by decide) rfl rfl (by decide) (by decide) rfl rfl
  exact ⟨h.1, h.2.1, h.2.2.1⟩

end Starssov
